import Mathlib

/-!
Verification of cerberus-mergeguard against its specification.

The development shallowly embeds the Go sources under pkg/server and
pkg/client: byte strings are lists of Nat (one entry per byte), 32-bit
machine words are Nat reduced modulo 2 ^ 32, HTTP traffic is explicit
(a call returns the requests it issued and consumes responses from an
oracle list), and fallible Go functions return Except String carrying
the error text of the source.

The SHA-256 core below embeds crypto/sha256 and crypto/hmac as used by
verifyWebhookSignature in pkg/server/util.go. For evaluation speed
inside the proof checker the eight chaining words travel as separate
Nat arguments and the schedule window and round constants are packed
into single Nat values, base 2 ^ 32; the functions compute exactly the
FIPS 180-4 compression, as the digest test vectors below check.
-/

namespace Cerberus

/-- The first sixteen round constants of FIPS 180-4, packed into one
Nat, low digit (base 2 ^ 32) first. -/
def sha256KA : Nat := 10140134132119274034404457435603022280920080662087235914290598713296212335582655845814164783279315546789873595852200029293657935846552049176186123497123736

/-- The remaining forty-eight packed round constants. -/
def sha256KB : Nat := 1868399358547771160974241758285314247394492940285262034869830078383349133599171640201698178056458455557392402512815477302944848983296578937767635685259923207352402620453076395726901642211873216550053715502351076858200230496696905686891834515400452970845004212731314633461829986666073186836402039580359418237812054405740388098878357014995412430909650733829402920789046915607225682010002542070651239873704584239595865437004958065540346651986101081859384591249009089

/-- Initial chaining state, packed with word a at digit 7 (base 2 ^ 32)
and word h at digit 0. -/
def sha256Init : Nat := 47962653771679561900652889051773562940742041696833059450490514104358170316057

/-- Temporary T1 of a compression round: h plus the big Sigma-1 of e,
plus the Ch choice function, plus kw, the round constant and schedule
word. The rotations use the doubling trick: after multiplying a 32-bit
word by 2 ^ 32 + 1, rotating right by n is dividing by 2 ^ n and
reducing modulo 2 ^ 32. -/
def shaT1 (e f g h kw : Nat) : Nat :=
  let y := Nat.mul e 4294967297
  Nat.add (Nat.add (Nat.add h (Nat.xor (Nat.xor (Nat.mod (Nat.div y 64) 4294967296) (Nat.mod (Nat.div y 2048) 4294967296)) (Nat.mod (Nat.div y 33554432) 4294967296))) (Nat.xor (Nat.land e f) (Nat.land (Nat.xor e 4294967295) g))) kw

/-- Temporary T2 of a compression round: the big Sigma-0 of a plus the
Maj majority function. -/
def shaT2 (a b c : Nat) : Nat :=
  let z := Nat.mul a 4294967297
  Nat.add (Nat.xor (Nat.xor (Nat.mod (Nat.div z 4) 4294967296) (Nat.mod (Nat.div z 8192) 4294967296)) (Nat.mod (Nat.div z 4194304) 4294967296)) (Nat.xor (Nat.xor (Nat.land a b) (Nat.land a c)) (Nat.land b c))

/-- Rounds 16 to 63 of a compression. The eight working words and the
sixteen-word schedule window travel as separate arguments, the oldest
schedule word first; KS holds the packed round constants left to
consume, low digit (base 2 ^ 32) first. Each round derives the next
schedule word by the FIPS small-sigma recurrence and rotates it into
the window. Returns the packed state before the feed-forward sum. The
rotations use the doubling trick: after multiplying a 32-bit word by
2 ^ 32 + 1, rotating right by n is dividing by 2 ^ n and reducing
modulo 2 ^ 32. -/
def sha256RoundsB (fuel : Nat) : Nat → Nat → Nat → Nat → Nat → Nat → Nat → Nat → Nat → Nat → Nat → Nat → Nat → Nat → Nat → Nat → Nat → Nat → Nat → Nat → Nat → Nat → Nat → Nat → Nat → Nat :=
  Nat.rec (motive := fun _ => Nat → Nat → Nat → Nat → Nat → Nat → Nat → Nat → Nat → Nat → Nat → Nat → Nat → Nat → Nat → Nat → Nat → Nat → Nat → Nat → Nat → Nat → Nat → Nat → Nat → Nat)
    (fun a b c d e f g h _ _ _ _ _ _ _ _ _ _ _ _ _ _ _ _ _ =>
      Nat.add (Nat.add (Nat.add (Nat.add (Nat.add (Nat.add (Nat.add (Nat.mul a 26959946667150639794667015087019630673637144422540572481103610249216) (Nat.mul b 6277101735386680763835789423207666416102355444464034512896)) (Nat.mul c 1461501637330902918203684832716283019655932542976)) (Nat.mul d 340282366920938463463374607431768211456)) (Nat.mul e 79228162514264337593543950336)) (Nat.mul f 18446744073709551616)) (Nat.mul g 4294967296)) h)
    (fun _ ih a b c d e f g h w0 w1 w2 w3 w4 w5 w6 w7 w8 w9 w10 w11 w12 w13 w14 w15 KS =>
      let q := Nat.mul w14 4294967297
      let r := Nat.mul w1 4294967297
      let n := Nat.mod (Nat.add (Nat.add (Nat.add (Nat.xor (Nat.xor (Nat.mod (Nat.div q 131072) 4294967296) (Nat.mod (Nat.div q 524288) 4294967296)) (Nat.div w14 1024)) w9) (Nat.xor (Nat.xor (Nat.mod (Nat.div r 128) 4294967296) (Nat.mod (Nat.div r 262144) 4294967296)) (Nat.div w1 8))) w0) 4294967296
      let u := shaT1 e f g h (Nat.add (Nat.mod KS 4294967296) n)
      ih (Nat.mod (Nat.add u (shaT2 a b c)) 4294967296) a b c (Nat.mod (Nat.add d u) 4294967296) e f g
        w1 w2 w3 w4 w5 w6 w7 w8 w9 w10 w11 w12 w13 w14 w15 n (Nat.div KS 4294967296))
    fuel

/-- Rounds 0 to 15: the schedule words are the block words themselves,
consumed oldest first and rotated to the back so that the full block is
the initial window of the later rounds. -/
def sha256RoundsA (fuel : Nat) : Nat → Nat → Nat → Nat → Nat → Nat → Nat → Nat → Nat → Nat → Nat → Nat → Nat → Nat → Nat → Nat → Nat → Nat → Nat → Nat → Nat → Nat → Nat → Nat → Nat → Nat :=
  Nat.rec (motive := fun _ => Nat → Nat → Nat → Nat → Nat → Nat → Nat → Nat → Nat → Nat → Nat → Nat → Nat → Nat → Nat → Nat → Nat → Nat → Nat → Nat → Nat → Nat → Nat → Nat → Nat → Nat)
    (fun a b c d e f g h w0 w1 w2 w3 w4 w5 w6 w7 w8 w9 w10 w11 w12 w13 w14 w15 _ =>
      sha256RoundsB 48 a b c d e f g h w0 w1 w2 w3 w4 w5 w6 w7 w8 w9 w10 w11 w12 w13 w14 w15 sha256KB)
    (fun _ ih a b c d e f g h w0 w1 w2 w3 w4 w5 w6 w7 w8 w9 w10 w11 w12 w13 w14 w15 KS =>
      let u := shaT1 e f g h (Nat.add (Nat.mod KS 4294967296) w0)
      ih (Nat.mod (Nat.add u (shaT2 a b c)) 4294967296) a b c (Nat.mod (Nat.add d u) 4294967296) e f g
        w1 w2 w3 w4 w5 w6 w7 w8 w9 w10 w11 w12 w13 w14 w15 w0 (Nat.div KS 4294967296))
    fuel

/-- Compression of one packed 16-word block B into the packed state S:
all 64 rounds, then the digit-wise feed-forward sum modulo 2 ^ 32. -/
def sha256Compress (S B : Nat) : Nat :=
  let F := sha256RoundsA 16 (Nat.div S 26959946667150639794667015087019630673637144422540572481103610249216) (Nat.mod (Nat.div S 6277101735386680763835789423207666416102355444464034512896) 4294967296) (Nat.mod (Nat.div S 1461501637330902918203684832716283019655932542976) 4294967296)
    (Nat.mod (Nat.div S 340282366920938463463374607431768211456) 4294967296) (Nat.mod (Nat.div S 79228162514264337593543950336) 4294967296) (Nat.mod (Nat.div S 18446744073709551616) 4294967296)
    (Nat.mod (Nat.div S 4294967296) 4294967296) (Nat.mod S 4294967296)
    (Nat.mod B 4294967296) (Nat.mod (Nat.div B 4294967296) 4294967296) (Nat.mod (Nat.div B 18446744073709551616) 4294967296) (Nat.mod (Nat.div B 79228162514264337593543950336) 4294967296)
    (Nat.mod (Nat.div B 340282366920938463463374607431768211456) 4294967296) (Nat.mod (Nat.div B 1461501637330902918203684832716283019655932542976) 4294967296) (Nat.mod (Nat.div B 6277101735386680763835789423207666416102355444464034512896) 4294967296) (Nat.mod (Nat.div B 26959946667150639794667015087019630673637144422540572481103610249216) 4294967296)
    (Nat.mod (Nat.div B 115792089237316195423570985008687907853269984665640564039457584007913129639936) 4294967296) (Nat.mod (Nat.div B 497323236409786642155382248146820840100456150797347717440463976893159497012533375533056) 4294967296) (Nat.mod (Nat.div B 2135987035920910082395021706169552114602704522356652769947041607822219725780640550022962086936576) 4294967296)
    (Nat.mod (Nat.div B 9173994463960286046443283581208347763186259956673124494950355357547691504353939232280074212440502746218496) 4294967296) (Nat.mod (Nat.div B 39402006196394479212279040100143613805079739270465446667948293404245721771497210611414266254884915640806627990306816) 4294967296) (Nat.mod (Nat.div B 169230328010303641331690318856389386196071598838855992136870091590247882556495704531248437872567112920983350278405979725889536) 4294967296)
    (Nat.mod (Nat.div B 726838724295606890549323807888004534353641360687318060281490199180639288113397923326191050713763565560762521606266177933534601628614656) 4294967296) (Nat.div B 3121748550315992231381597229793166305748598142664971150859156959625371738819765620120306103063491971159826931121406622895447975679288285306290176)
    sha256KA
  Nat.add (Nat.add (Nat.add (Nat.add (Nat.add (Nat.add (Nat.add (Nat.mul (Nat.mod (Nat.add (Nat.div S 26959946667150639794667015087019630673637144422540572481103610249216) (Nat.div F 26959946667150639794667015087019630673637144422540572481103610249216)) 4294967296) 26959946667150639794667015087019630673637144422540572481103610249216) (Nat.mul (Nat.mod (Nat.add (Nat.mod (Nat.div S 6277101735386680763835789423207666416102355444464034512896) 4294967296) (Nat.mod (Nat.div F 6277101735386680763835789423207666416102355444464034512896) 4294967296)) 4294967296) 6277101735386680763835789423207666416102355444464034512896)) (Nat.mul (Nat.mod (Nat.add (Nat.mod (Nat.div S 1461501637330902918203684832716283019655932542976) 4294967296) (Nat.mod (Nat.div F 1461501637330902918203684832716283019655932542976) 4294967296)) 4294967296) 1461501637330902918203684832716283019655932542976)) (Nat.mul (Nat.mod (Nat.add (Nat.mod (Nat.div S 340282366920938463463374607431768211456) 4294967296) (Nat.mod (Nat.div F 340282366920938463463374607431768211456) 4294967296)) 4294967296) 340282366920938463463374607431768211456)) (Nat.mul (Nat.mod (Nat.add (Nat.mod (Nat.div S 79228162514264337593543950336) 4294967296) (Nat.mod (Nat.div F 79228162514264337593543950336) 4294967296)) 4294967296) 79228162514264337593543950336)) (Nat.mul (Nat.mod (Nat.add (Nat.mod (Nat.div S 18446744073709551616) 4294967296) (Nat.mod (Nat.div F 18446744073709551616) 4294967296)) 4294967296) 18446744073709551616)) (Nat.mul (Nat.mod (Nat.add (Nat.mod (Nat.div S 4294967296) 4294967296) (Nat.mod (Nat.div F 4294967296) 4294967296)) 4294967296) 4294967296)) (Nat.mod (Nat.add (Nat.mod S 4294967296) (Nat.mod F 4294967296)) 4294967296)

/-- Big-endian bytes of n, k bytes wide. -/
def natBytesBE : Nat → Nat → List Nat
  | 0, _ => []
  | Nat.succ k, n => natBytesBE k (Nat.div n 256) ++ [Nat.mod n 256]

/-- SHA-256 padding: a 0x80 byte, zeros up to 56 modulo 64, then the
bit length in 8 big-endian bytes. -/
def sha256Pad (msg : List Nat) : List Nat :=
  msg ++ [128] ++ List.replicate ((119 - msg.length % 64) % 64) 0
      ++ natBytesBE 8 (msg.length * 8)

/-- Big-endian 32-bit words of a byte string. -/
def bytesToWords : List Nat → List Nat
  | b0 :: b1 :: b2 :: b3 :: rest =>
      (Nat.add (Nat.mul (Nat.add (Nat.mul (Nat.add (Nat.mul b0 256) b1) 256) b2) 256) b3)
        :: bytesToWords rest
  | _ => []

/-- Pack a word list into one Nat, head at the low digit, base 2 ^ 32. -/
def packWords (ws : List Nat) : Nat :=
  ws.foldr (fun w acc => Nat.add (Nat.mul acc 4294967296) w) 0

/-- Chunk a word list into packed 16-word blocks. -/
def wordsToBlocks : List Nat → List Nat
  | w0 :: w1 :: w2 :: w3 :: w4 :: w5 :: w6 :: w7 ::
    w8 :: w9 :: w10 :: w11 :: w12 :: w13 :: w14 :: w15 :: rest =>
      packWords [w0, w1, w2, w3, w4, w5, w6, w7, w8, w9, w10, w11, w12, w13, w14, w15]
        :: wordsToBlocks rest
  | _ => []

/-- Fold the compression over a block list. -/
def sha256Blocks (S : Nat) (blocks : List Nat) : Nat :=
  blocks.foldl sha256Compress S

/-- The 32 digest bytes of a packed final state. -/
def sha256Digest (F : Nat) : List Nat :=
  natBytesBE 4 (Nat.div F 26959946667150639794667015087019630673637144422540572481103610249216)
    ++ natBytesBE 4 (Nat.mod (Nat.div F 6277101735386680763835789423207666416102355444464034512896) 4294967296)
    ++ natBytesBE 4 (Nat.mod (Nat.div F 1461501637330902918203684832716283019655932542976) 4294967296)
    ++ natBytesBE 4 (Nat.mod (Nat.div F 340282366920938463463374607431768211456) 4294967296)
    ++ natBytesBE 4 (Nat.mod (Nat.div F 79228162514264337593543950336) 4294967296)
    ++ natBytesBE 4 (Nat.mod (Nat.div F 18446744073709551616) 4294967296)
    ++ natBytesBE 4 (Nat.mod (Nat.div F 4294967296) 4294967296)
    ++ natBytesBE 4 (Nat.mod F 4294967296)

/-- SHA-256 of a byte string, as its 32 digest bytes. -/
def sha256 (msg : List Nat) : List Nat :=
  sha256Digest (sha256Blocks sha256Init (wordsToBlocks (bytesToWords (sha256Pad msg))))

/-- Zero-padded HMAC key of one block, hashing keys over 64 bytes
first, as crypto/hmac prepares it. -/
def hmacKeyPad (key : List Nat) : List Nat :=
  let k1 := if key.length > 64 then sha256 key else key
  k1 ++ List.replicate (64 - k1.length) 0

/-- HMAC-SHA256 with block size 64, as crypto/hmac instantiates it for
crypto/sha256. -/
def hmacSha256 (key msg : List Nat) : List Nat :=
  sha256 ((hmacKeyPad key).map (fun b => b ^^^ 92)
    ++ sha256 ((hmacKeyPad key).map (fun b => b ^^^ 54) ++ msg))

def hexDigitChar (n : Nat) : Nat := if n < 10 then Nat.add 48 n else Nat.add 87 n

/-- Lowercase hex rendering of bytes, itself a byte string; the source
formats the digest with the percent-x verb of fmt.Sprintf. -/
def hexBytes (bs : List Nat) : List Nat :=
  (bs.map (fun b => [hexDigitChar (Nat.div b 16), hexDigitChar (Nat.mod b 16)])).flatten

/-- Bytes of an ASCII string literal. -/
def asciiBytes (s : String) : List Nat := s.data.map Char.toNat

/-- Embeds the strings.CutPrefix call of verifyWebhookSignature: the
sha256= scheme tag is removed when present, otherwise the header value
is kept whole. -/
def trimSigScheme (sig : List Nat) : List Nat :=
  if sig.take 7 = asciiBytes "sha256=" then sig.drop 7 else sig

/-- Shallow embedding of verifyWebhookSignature, pkg/server/util.go:
true models the nil return, false the signature-mismatch error. The
constant-time hmac.Equal of the source is equality of byte strings
here; constant-timeness itself is a timing property the embedding does
not see. -/
def verifyWebhookSignature (body secret signature : List Nat) : Bool :=
  hexBytes (hmacSha256 secret body) == trimSigScheme signature

set_option maxRecDepth 100000

/-- FIPS 180-4 test vector: the implementation hashes abc to the
standard digest. -/
theorem sha256_abc_vector :
    hexBytes (sha256 (asciiBytes "abc"))
      = asciiBytes "ba7816bf8f01cfea414140de5dae2223b00361a396177a9cb410ff61f20015ad" := by
  decide

/-! ## Concrete webhook-signature material

The test fixture of the repository (pkg/server/util_test.go): body
"test body", secret "testsecret", and the signature header the spec
quotes. -/

/-- Bytes of the test body. -/
def tbBytes : List Nat := [116, 101, 115, 116, 32, 98, 111, 100, 121]

/-- Bytes of the test secret. -/
def tsBytes : List Nat := [116, 101, 115, 116, 115, 101, 99, 114, 101, 116]

/-- Bytes of the signature header value, scheme tag included. -/
def sigBytes : List Nat := [115, 104, 97, 50, 53, 54, 61, 102, 57, 52, 48, 102, 100, 54, 99, 98, 56, 51, 97, 48, 53, 54, 55, 100, 97, 97, 56, 100, 50, 57, 52, 102, 48, 102, 57, 51, 97, 99, 50, 57, 97, 98, 102, 98, 53, 100, 57, 101, 57, 97, 50, 53, 53, 48, 55, 98, 98, 54, 101, 56, 56, 53, 55, 56, 100, 101, 97, 51, 52, 52, 97]

/-- Bytes of the bare hex digest the signature header carries. -/
def f940Bytes : List Nat := [102, 57, 52, 48, 102, 100, 54, 99, 98, 56, 51, 97, 48, 53, 54, 55, 100, 97, 97, 56, 100, 50, 57, 52, 102, 48, 102, 57, 51, 97, 99, 50, 57, 97, 98, 102, 98, 53, 100, 57, 101, 57, 97, 50, 53, 53, 48, 55, 98, 98, 54, 101, 56, 56, 53, 55, 56, 100, 101, 97, 51, 52, 52, 97]

set_option maxHeartbeats 4000000

/-- The fixture byte lists spell the strings of the repository test. -/
theorem fixtureBytes_eq :
    tbBytes = asciiBytes "test body" ∧ tsBytes = asciiBytes "testsecret"
      ∧ sigBytes = asciiBytes "sha256=f940fd6cb83a0567daa8d294f0f93ac29abfb5d9e9a25507bb6e88578dea344a"
      ∧ f940Bytes = asciiBytes "f940fd6cb83a0567daa8d294f0f93ac29abfb5d9e9a25507bb6e88578dea344a" := by
  refine ⟨by decide, by decide, by decide, by decide⟩

/-- Inner key pad of the secret testsecret: the zero-padded key xored
with 0x36, written out. -/
def ipadKey : List Nat := [66, 83, 69, 66, 69, 83, 85, 68, 83, 66, 54, 54, 54, 54, 54, 54, 54, 54, 54, 54, 54, 54, 54, 54, 54, 54, 54, 54, 54, 54, 54, 54, 54, 54, 54, 54, 54, 54, 54, 54, 54, 54, 54, 54, 54, 54, 54, 54, 54, 54, 54, 54, 54, 54, 54, 54, 54, 54, 54, 54, 54, 54, 54, 54]

/-- Packed inner key-pad block. -/
def hmacInnerBlock : Nat := packWords (bytesToWords ipadKey)

/-- The inner pad bytes are what crypto/hmac derives from the secret. -/
theorem ipadKey_eq : (hmacKeyPad tsBytes).map (fun b => b ^^^ 54) = ipadKey := by decide

/-- Unfolding equation of the padding. -/
theorem sha256Pad_eq (m : List Nat) :
    sha256Pad m
      = m ++ [128] ++ List.replicate ((119 - m.length % 64) % 64) 0
          ++ natBytesBE 8 (m.length * 8) := rfl

/-- Unfolding equation for one block of the fold. -/
theorem sha256Blocks_cons (S b : Nat) (rest : List Nat) :
    sha256Blocks S (b :: rest) = sha256Blocks (sha256Compress S b) rest := by
  simp [sha256Blocks]

/-- Block decomposition of the padded inner HMAC message of a 9-byte
body: the literal key-pad block, then one block of body and padding. -/
theorem innerBlocks_split (b0 b1 b2 b3 b4 b5 b6 b7 b8 : Nat) :
    wordsToBlocks (bytesToWords (sha256Pad (ipadKey ++ [b0, b1, b2, b3, b4, b5, b6, b7, b8])))
      = hmacInnerBlock :: wordsToBlocks (bytesToWords
          ([b0, b1, b2, b3, b4, b5, b6, b7, b8] ++ [128]
            ++ List.replicate 46 0 ++ natBytesBE 8 584)) := by
  rw [sha256Pad_eq]
  rw [show ((ipadKey ++ [b0, b1, b2, b3, b4, b5, b6, b7, b8] : List Nat)).length = 73 by
    simp [ipadKey]]
  norm_num
  rfl


/-- Outer key pad of the secret testsecret: the zero-padded key xored
with 0x5c, written out. -/
def opadKey : List Nat := [40, 57, 47, 40, 47, 57, 63, 46, 57, 40, 92, 92, 92, 92, 92, 92, 92, 92, 92, 92, 92, 92, 92, 92, 92, 92, 92, 92, 92, 92, 92, 92, 92, 92, 92, 92, 92, 92, 92, 92, 92, 92, 92, 92, 92, 92, 92, 92, 92, 92, 92, 92, 92, 92, 92, 92, 92, 92, 92, 92, 92, 92, 92, 92]

/-- Packed outer key-pad block. -/
def hmacOuterBlock : Nat := packWords (bytesToWords opadKey)

/-- The outer pad bytes are what crypto/hmac derives from the secret. -/
theorem opadKey_eq : (hmacKeyPad tsBytes).map (fun b => b ^^^ 92) = opadKey := by decide

/-- natBytesBE always yields exactly k bytes. -/
theorem natBytesBE_length (k n : Nat) : (natBytesBE k n).length = k := by
  induction k generalizing n with
  | zero => rfl
  | succ k ih => simp [natBytesBE, ih]

/-- A digest always has 32 bytes. -/
theorem sha256Digest_length (F : Nat) : (sha256Digest F).length = 32 := by
  simp [sha256Digest, natBytesBE_length]

/-- Block decomposition of the padded outer HMAC message over any inner
digest: the literal key-pad block, then one block of digest and padding. -/
theorem outerBlocks_split (F : Nat) :
    wordsToBlocks (bytesToWords (sha256Pad (opadKey ++ sha256Digest F)))
      = hmacOuterBlock :: wordsToBlocks (bytesToWords
          (sha256Digest F ++ [128] ++ List.replicate 23 0 ++ natBytesBE 8 768)) := by
  rw [sha256Pad_eq]
  rw [show ((opadKey ++ sha256Digest F : List Nat)).length = 96 by
    simp [opadKey, sha256Digest_length]]
  norm_num
  rfl


def hmacInnerMid : Nat := 20268899012065758702665931498183889718910984752515726146462269794442730679910

def hmacOuterMid : Nat := 16229826293493377525097611927686463380755846746980894870242479129676843835308

/-- Compressing the inner key-pad block yields the recorded midstate. -/
theorem hmacInnerMid_eq : sha256Compress sha256Init hmacInnerBlock = hmacInnerMid := by decide

/-- Compressing the outer key-pad block yields the recorded midstate. -/
theorem hmacOuterMid_eq : sha256Compress sha256Init hmacOuterBlock = hmacOuterMid := by decide

/-- HMAC-SHA256 of a 9-byte message under secret testsecret computed
from the key-pad midstates: one compression for the tail of the inner
hash and one for the tail of the outer hash. The bridge theorems below
prove it agrees with hmacSha256 on every 9-byte message, so nothing is
trusted about the midstate constants. -/
def hmacTail9 (bs : List Nat) : List Nat :=
  sha256Digest (sha256Blocks hmacOuterMid (wordsToBlocks (bytesToWords
    (sha256Digest (sha256Blocks hmacInnerMid (wordsToBlocks (bytesToWords
      (bs ++ [128] ++ List.replicate 46 0 ++ natBytesBE 8 584))))
      ++ [128] ++ List.replicate 23 0 ++ natBytesBE 8 768))))

/-- The outer hash of the HMAC over any inner digest starts from the
outer midstate. -/
theorem sha256_outer_split (F : Nat) :
    sha256 (opadKey ++ sha256Digest F)
      = sha256Digest (sha256Blocks hmacOuterMid (wordsToBlocks (bytesToWords
          (sha256Digest F ++ [128] ++ List.replicate 23 0 ++ natBytesBE 8 768)))) := by
  show sha256Digest (sha256Blocks sha256Init (wordsToBlocks (bytesToWords
      (sha256Pad (opadKey ++ sha256Digest F))))) = _
  rw [outerBlocks_split, sha256Blocks_cons, hmacOuterMid_eq]

/-- The inner hash of the HMAC of a 9-byte body starts from the inner
midstate. -/
theorem sha256_inner_split (b0 b1 b2 b3 b4 b5 b6 b7 b8 : Nat) :
    sha256 (ipadKey ++ [b0, b1, b2, b3, b4, b5, b6, b7, b8])
      = sha256Digest (sha256Blocks hmacInnerMid (wordsToBlocks (bytesToWords
          ([b0, b1, b2, b3, b4, b5, b6, b7, b8] ++ [128]
            ++ List.replicate 46 0 ++ natBytesBE 8 584)))) := by
  show sha256Digest (sha256Blocks sha256Init (wordsToBlocks (bytesToWords
      (sha256Pad (ipadKey ++ [b0, b1, b2, b3, b4, b5, b6, b7, b8]))))) = _
  rw [innerBlocks_split, sha256Blocks_cons, hmacInnerMid_eq]

/-- On explicit 9-byte messages the HMAC equals its midstate tail form. -/
theorem hmac_bridge9 (b0 b1 b2 b3 b4 b5 b6 b7 b8 : Nat) :
    hmacSha256 tsBytes [b0, b1, b2, b3, b4, b5, b6, b7, b8]
      = hmacTail9 [b0, b1, b2, b3, b4, b5, b6, b7, b8] := by
  show sha256 ((hmacKeyPad tsBytes).map (fun b => b ^^^ 92)
      ++ sha256 ((hmacKeyPad tsBytes).map (fun b => b ^^^ 54)
        ++ [b0, b1, b2, b3, b4, b5, b6, b7, b8])) = _
  rw [ipadKey_eq, opadKey_eq, sha256_inner_split, sha256_outer_split]
  rfl

/-- On every message of nine bytes the HMAC equals its tail form. -/
theorem hmac_bridge (bs : List Nat) (h : bs.length = 9) :
    hmacSha256 tsBytes bs = hmacTail9 bs := by
  match bs, h with
  | [b0, b1, b2, b3, b4, b5, b6, b7, b8], _ =>
    exact hmac_bridge9 b0 b1 b2 b3 b4 b5 b6 b7 b8

/-- The tail form reproduces the digest of the unmodified test body. -/
theorem sanity_pos :
    (hexBytes (hmacTail9 [116, 101, 115, 116, 32, 98, 111, 100, 121])
      == f940Bytes) = true := by decide

/-- The tail form rejects a first-byte corruption of the test body. -/
theorem sanity_neg :
    (hexBytes (hmacTail9 [117, 101, 115, 116, 32, 98, 111, 100, 121])
      == f940Bytes) = false := by decide


/-! ## Data model of pkg/client

The structures mirror the Go structs of checkrun.go and events.go;
int64 fields become Int, string fields String. A Go string field left
at its zero value is the empty string, which json omitempty drops, so
absence of a conclusion is the empty string here. -/

structure CheckRunOutput where
  title : String
  summary : String
deriving DecidableEq

structure CheckRun where
  id : Int
  name : String
  headSHA : String
  status : String
  conclusion : String
  startedAt : String
  completedAt : String
  output : CheckRunOutput
deriving DecidableEq

structure CheckRuns where
  totalCount : Int
  checkRuns : List CheckRun
deriving DecidableEq

structure Repository where
  id : Int
  name : String
  fullName : String
  url : String
deriving DecidableEq

structure Sender where
  login : String
  id : Int
deriving DecidableEq

structure CheckRunEvent where
  action : String
  checkRun : CheckRun
  repository : Repository
  sender : Sender
deriving DecidableEq

structure PullRequestEvent where
  action : String
  number : Int
  repository : Repository
  sender : Sender
deriving DecidableEq

/-! ## Webhook gateway, pkg/server/server.go -/

/-- Event a run of the handler passed on to the client layer. -/
inductive DispatchedEvent where
  | pullRequest (e : PullRequestEvent)
  | checkRun (e : CheckRunEvent)
deriving DecidableEq

/-- Outcome of one run of the webhook handler: the HTTP status written
(200 models the implicit OK of a Go handler that returns without
calling WriteHeader) and the event handed to the client layer, if any. -/
structure WebhookResult where
  status : Nat
  dispatched : Option DispatchedEvent
deriving DecidableEq

/-- Shallow embedding of webhookHandler, pkg/server/server.go. The two
json.Unmarshal calls are abstracted into the decoder arguments, which
return none exactly when unmarshalling fails; reading the request body
is assumed to succeed (its failure path is io, outside the embedding).
Header absence in Go is the empty string, hence the empty byte list. -/
def webhookHandler (decodePR : List Nat → Option PullRequestEvent)
    (decodeCR : List Nat → Option CheckRunEvent)
    (secret sigHeader : List Nat) (eventType : String) (body : List Nat) :
    WebhookResult :=
  if sigHeader = [] ∧ secret ≠ [] then ⟨400, none⟩
  else if sigHeader ≠ [] ∧ secret ≠ [] ∧ verifyWebhookSignature body secret sigHeader = false then
    ⟨401, none⟩
  else if eventType = "pull_request" then
    match decodePR body with
    | none => ⟨400, none⟩
    | some e => ⟨200, some (.pullRequest e)⟩
  else if eventType = "check_run" then
    match decodeCR body with
    | none => ⟨400, none⟩
    | some e => ⟨200, some (.checkRun e)⟩
  else ⟨200, none⟩

/-! ## GitHub REST client, pkg/client/api.go and client.go

Every operation returns the value of the Go call together with the
list of HTTP requests it issued; responses come from an oracle list
consumed front to back, one entry per http.DefaultClient.Do call. An
exhausted oracle models a transport error. JSON decoding of a response
body is abstracted into an Option field holding the decoded value. -/

structure HttpRequest where
  method : String
  url : String
  payload : Option CheckRun
deriving DecidableEq

/-- GithubConfig of pkg/config/config.go. -/
structure GithubConfig where
  clientID : String
  privateKey : String
  webhookSecret : String
  api : String
deriving DecidableEq

/-- Stand-in for a parsed RSA private key; the signing arithmetic of
crypto/rsa is outside the embedding, so a key is opaque. -/
structure RSAKey where
  keyID : Nat
deriving DecidableEq

/-- Claims set of the App JWT, with times in seconds. The source also
stores the literal alg RS256 inside its claims map, mirrored here. -/
structure JwtClaims where
  iat : Int
  exp : Int
  iss : String
  alg : String
deriving DecidableEq

/-- Result of token.SignedString: the claims bound to the key they were
signed with, standing in for the opaque signed compact serialization. -/
structure SignedJWT where
  claims : JwtClaims
  signedWith : RSAKey
deriving DecidableEq

/-- Environment of createJWT: os.ReadFile as a map from path to
contents (none models a read error) and jwt.ParseRSAPrivateKeyFromPEM
as a map from contents to a parsed key (none models a parse error). -/
structure JwtEnv where
  readKeyFile : String → Option (List Nat)
  parseRSAKeyPEM : List Nat → Option RSAKey

/-- Shallow embedding of createJWT, pkg/client/client.go: read and
parse the configured private key, build the claims with issued-at 30
seconds in the past and expiry 5 minutes ahead, issuer the client id,
and sign with RS256. Both time.Now calls of the source are the one
instant now. -/
def createJWT (env : JwtEnv) (c : GithubConfig) (now : Int) : Except String SignedJWT :=
  match env.readKeyFile c.privateKey with
  | none => .error ("failed to read private key file: " ++ c.privateKey)
  | some pem =>
    match env.parseRSAKeyPEM pem with
    | none => .error "failed to parse private key from PEM"
    | some key =>
      .ok { claims := { iat := now - 30, exp := now + 300, iss := c.clientID, alg := "RS256" },
            signedWith := key }

structure InstallationAccessTokenResponse where
  token : String
  expiresAt : String
deriving DecidableEq

/-- One response of the access-token endpoint: HTTP status and, when
the body decodes, the decoded payload. -/
structure TokenResponse where
  status : Nat
  body : Option InstallationAccessTokenResponse
deriving DecidableEq

/-- Shallow embedding of GetInstallationAccessToken, client.go: create
a JWT, POST to the installation access-token endpoint, demand status
201, decode, and return the token field. No state survives the call:
the result is a function of the arguments alone, and each call issues
its own exchange request. -/
def GetInstallationAccessToken (env : JwtEnv) (c : GithubConfig) (now : Int)
    (installationID : Int) (responses : List TokenResponse) :
    Except String String × List HttpRequest :=
  match createJWT env c now with
  | .error e => (.error ("failed to create JWT: " ++ e), [])
  | .ok _ =>
    let req : HttpRequest :=
      ⟨"POST", c.api ++ "/app/installations/" ++ toString installationID ++ "/access_tokens", none⟩
    match responses.head? with
    | none => (.error "failed to get access token", [req])
    | some r =>
      if r.status ≠ 201 then
        (.error ("failed to get access token, status code: " ++ toString r.status), [req])
      else
        match r.body with
        | none => (.error "failed to decode installation access token response", [req])
        | some t => (.ok t.token, [req])

/-- PRClient of pkg/client/api.go. -/
structure PRClient where
  repoURL : String
  commit : String
  token : String
deriving DecidableEq

structure RunsResponse where
  status : Nat
  body : Option CheckRuns
deriving DecidableEq

/-- Shallow embedding of GetCheckRuns, api.go: GET the check runs of
the commit, demand status 200, decode, and return the run list. -/
def GetCheckRuns (c : PRClient) (responses : List RunsResponse) :
    Except String (List CheckRun) × List HttpRequest :=
  let req : HttpRequest := ⟨"GET", c.repoURL ++ "/commits/" ++ c.commit ++ "/check-runs", none⟩
  match responses.head? with
  | none => (.error "failed to request check-runs from api", [req])
  | some r =>
    if r.status ≠ 200 then
      (.error ("failed to get check-runs from api, status code: " ++ toString r.status), [req])
    else
      match r.body with
      | none => (.error "failed to decode check-runs response", [req])
      | some runs => (.ok runs.checkRuns, [req])

/-- Payload CreateCheckRun builds, api.go lines 60 to 69: status is the
literal pending, no conclusion, and the fixed waiting summary. -/
def createCheckRunPayload (name commit startedAt : String) : CheckRun :=
  { id := 0, name := name, headSHA := commit, status := "pending", conclusion := "",
    startedAt := startedAt, completedAt := "",
    output := { title := name, summary := "Waiting for other checks to complete" } }

structure CreateResponse where
  status : Nat
  body : Option CheckRun
deriving DecidableEq

/-- Shallow embedding of CreateCheckRun, api.go: POST the payload,
demand status 201. A response body that fails to decode is only
logged, so the call still succeeds. -/
def CreateCheckRun (c : PRClient) (name startedAt : String)
    (responses : List CreateResponse) : Except String Unit × List HttpRequest :=
  let req : HttpRequest := ⟨"POST", c.repoURL ++ "/check-runs",
    some (createCheckRunPayload name c.commit startedAt)⟩
  match responses.head? with
  | none => (.error "failed to request check-run creation from api", [req])
  | some r =>
    if r.status ≠ 201 then
      (.error ("failed to create check-run, status code: " ++ toString r.status), [req])
    else (.ok (), [req])

structure UpdateResponse where
  status : Nat
deriving DecidableEq

/-- Shallow embedding of UpdateCheckRun, api.go: refuse a payload whose
ID is zero before any request, else PATCH the payload to the check run
and demand status 200. -/
def UpdateCheckRun (c : PRClient) (payload : CheckRun)
    (responses : List UpdateResponse) : Except String Unit × List HttpRequest :=
  if payload.id = 0 then (.error "check run ID must be set to update a check run", [])
  else
    let req : HttpRequest := ⟨"PATCH", c.repoURL ++ "/check-runs/" ++ toString payload.id,
      some payload⟩
    match responses.head? with
    | none => (.error "failed to update check-run", [req])
    | some r =>
      if r.status ≠ 200 then
        (.error ("failed to update check-run, status code: " ++ toString r.status), [req])
      else (.ok (), [req])

/-! ## Check aggregator

HandleCheckRunEvent and HandlePullRequestEvent are TODO stubs in
pkg/client/client.go; the spec (sections 3 and 4.4) defines the
intended behaviour, so the aggregation state machine below is modelled
from the spec, while the check-run creation payload comes from the
implemented CreateCheckRun of api.go. -/

/-- Modelled from the spec: the conclusions that make the aggregate
fail (section 4.4). -/
def failingConclusions : List String :=
  ["failure", "timed_out", "action_required", "cancelled", "stale"]

/-- Modelled from the spec: the conclusions that count as passed
(section 4.4). -/
def passingConclusions : List String := ["success", "neutral", "skipped"]

/-- Modelled from the spec: a tracked check that forces the aggregate
to failure. -/
def isFailedCheck (r : CheckRun) : Bool :=
  r.status == "completed" && failingConclusions.contains r.conclusion

/-- Modelled from the spec: a tracked check that counts as passed. -/
def isPassedCheck (r : CheckRun) : Bool :=
  r.status == "completed" && passingConclusions.contains r.conclusion

/-- Modelled from the spec: the aggregate decision over the tracked
checks, section 4.4 — failure if any tracked check failed, else
success if there is at least one tracked check and all passed, else
in progress (also for zero tracked checks). -/
def aggregateDecision (checks : List (String × CheckRun)) : String :=
  if checks.any (fun p => isFailedCheck p.2) then "failure"
  else if !checks.isEmpty && checks.all (fun p => isPassedCheck p.2) then "success"
  else "in_progress"

/-- Modelled from the spec: the per-commit aggregation state of
section 3 — the commit key, the check run of the guard itself, the tracked
checks keyed by name, the computed aggregate status, the dirty flag
and the pending-refresh deadline. -/
structure AggregateEntry where
  repo : String
  commit : String
  guard : Option CheckRun
  checks : List (String × CheckRun)
  status : String
  dirty : Bool
  deadline : Option Nat
deriving DecidableEq

/-- Modelled from the spec: replace the record under a name
unconditionally, appending when the name is new (last-delivered-wins,
section 4.4). -/
def upsertCheck (name : String) (r : CheckRun) :
    List (String × CheckRun) → List (String × CheckRun)
  | [] => [(name, r)]
  | (n, r0) :: t => if n = name then (name, r) :: t else (n, r0) :: upsertCheck name r t

/-- Modelled from the spec: a mutation marks the entry dirty and, when
a refresh window W is configured and none is pending, schedules a push
at now plus W; a pending deadline is never rescheduled (section 4.4). -/
def nextDeadline (W now : Nat) : Option Nat → Option Nat
  | some d => some d
  | none => if W = 0 then none else some (now + W)

/-- Modelled from the spec: a mutation marks the entry dirty and
schedules the push deadline by nextDeadline. -/
def scheduleRefresh (W now : Nat) (e : AggregateEntry) : AggregateEntry :=
  { e with dirty := true, deadline := nextDeadline W now e.deadline }

/-- Modelled from the spec: applying a CheckRunEvent, section 4.4 — an
event for the guard itself updates the guard state, any other event
upserts the tracked record of its name; the aggregate decision is then
recomputed and the refresh bookkeeping applied. -/
def applyCheckRunEvent (guardName : String) (W now : Nat) (ev : CheckRunEvent)
    (e : AggregateEntry) : AggregateEntry :=
  let e1 :=
    if ev.checkRun.name = guardName then { e with guard := some ev.checkRun }
    else { e with checks := upsertCheck ev.checkRun.name ev.checkRun e.checks }
  scheduleRefresh W now { e1 with status := aggregateDecision e1.checks }

/-- Modelled from the spec: handling a PullRequestEvent, section 4.4 —
on the actions opened, reopened and synchronize ensure a guard check
run exists for the commit, creating one (with the payload the
implemented CreateCheckRun builds) exactly when none of the known runs
carries the guard name. The returned list holds the creation payloads
to POST. -/
def handlePullRequestEvent (guardName commit now : String) (existing : List CheckRun)
    (ev : PullRequestEvent) : List CheckRun :=
  if ev.action = "opened" ∨ ev.action = "reopened" ∨ ev.action = "synchronize" then
    if existing.any (fun r => r.name == guardName) then []
    else [createCheckRunPayload guardName commit now]
  else []

/-! ## Concrete material for counterexamples and witnesses -/

/-- Configuration used by concrete instantiations. -/
def cfgW : GithubConfig :=
  { clientID := "client-1", privateKey := "/etc/key.pem", webhookSecret := "",
    api := "https://api.github.com" }

/-- Environment whose key file reads and parses fine. -/
def envW : JwtEnv :=
  { readKeyFile := fun _ => some [1], parseRSAKeyPEM := fun _ => some { keyID := 0 } }

/-- The JWT envW and cfgW produce at time 0. -/
def jwtW : SignedJWT :=
  { claims := { iat := -30, exp := 300, iss := "client-1", alg := "RS256" },
    signedWith := { keyID := 0 } }

/-! ## Claim theorems -/

/-- C10: for every CheckRun payload whose ID field is 0, UpdateCheckRun
returns an error without issuing any HTTP request, leaving remote and
local state unchanged; only payloads with a nonzero ID lead to a PATCH
request. -/
theorem updateCheckRun_id_guard (c : PRClient) (payload : CheckRun)
    (rs : List UpdateResponse) :
    (payload.id = 0 →
      UpdateCheckRun c payload rs
        = (.error "check run ID must be set to update a check run", []))
    ∧ (payload.id ≠ 0 →
      (UpdateCheckRun c payload rs).2
        = [{ method := "PATCH",
             url := c.repoURL ++ "/check-runs/" ++ toString payload.id,
             payload := some payload }]) := by
  constructor
  · intro h
    simp [UpdateCheckRun, h]
  · intro h
    simp only [UpdateCheckRun, if_neg h]
    cases rs.head? with
    | none => rfl
    | some r =>
      by_cases hs : r.status = 200 <;> simp [hs]

/-- Client used by concrete instantiations, matching the API test fixtures. -/
def prcW : PRClient :=
  { repoURL := "https://api.github.com/repos/testowner/testrepo", commit := "testcommit",
    token := "testtoken" }

/-- The update payload of the API test fixtures. -/
def runW : CheckRun :=
  { id := 654321, name := "test-check", headSHA := "testcommit", status := "completed",
    conclusion := "success", startedAt := "", completedAt := "",
    output := { title := "test-check", summary := "s" } }

/-- Concrete instantiation of the C10 theorem: the test fixture payload
of id 654321 is PATCHed to its endpoint, and the same payload with id 0
is refused without any request being issued. -/
theorem updateCheckRun_id_guard_witness :
    (UpdateCheckRun prcW { runW with id := 0 } [{ status := 200 }]
      = (.error "check run ID must be set to update a check run", []))
    ∧ ((UpdateCheckRun prcW runW [{ status := 200 }]).2
      = [{ method := "PATCH",
           url := "https://api.github.com/repos/testowner/testrepo/check-runs/654321",
           payload := some runW }]) := by
  refine ⟨(updateCheckRun_id_guard prcW { runW with id := 0 } [{ status := 200 }]).1 rfl, ?_⟩
  have h := (updateCheckRun_id_guard prcW runW [{ status := 200 }]).2 (by decide)
  simpa [prcW, runW] using h

/-- C7: the App JWT carries issued-at now minus 30 seconds, expiry now
plus 5 minutes and issuer the App client id, is signed with RS256 using
the configured private key, and creation fails whenever the key file
cannot be read or the PEM cannot be parsed. -/
theorem createJWT_spec (env : JwtEnv) (c : GithubConfig) (now : Int) :
    (env.readKeyFile c.privateKey = none →
      createJWT env c now = .error ("failed to read private key file: " ++ c.privateKey))
    ∧ (∀ pem, env.readKeyFile c.privateKey = some pem → env.parseRSAKeyPEM pem = none →
      createJWT env c now = .error "failed to parse private key from PEM")
    ∧ (∀ pem key, env.readKeyFile c.privateKey = some pem →
      env.parseRSAKeyPEM pem = some key →
      createJWT env c now
        = .ok { claims := { iat := now - 30, exp := now + 300, iss := c.clientID, alg := "RS256" },
                signedWith := key }) := by
  refine ⟨fun h => by simp [createJWT, h], fun pem h1 h2 => by simp [createJWT, h1, h2],
    fun pem key h1 h2 => by simp [createJWT, h1, h2]⟩

/-- Whatever the one queued response holds, a call with a working JWT
issues exactly the POST exchange request. -/
theorem GetInstallationAccessToken_requests (env : JwtEnv) (c : GithubConfig)
    (now id : Int) (r : TokenResponse) (j : SignedJWT)
    (h : createJWT env c now = .ok j) :
    (GetInstallationAccessToken env c now id [r]).2
      = [{ method := "POST",
           url := c.api ++ "/app/installations/" ++ toString id ++ "/access_tokens",
           payload := none }] := by
  obtain ⟨s, b⟩ := r
  by_cases hs : s = 201 <;> cases b <;> simp [GetInstallationAccessToken, h, hs]

/-- Whatever the one queued response holds, GetCheckRuns issues exactly
the GET request. -/
theorem GetCheckRuns_requests (c : PRClient) (r : RunsResponse) :
    (GetCheckRuns c [r]).2
      = [{ method := "GET", url := c.repoURL ++ "/commits/" ++ c.commit ++ "/check-runs",
           payload := none }] := by
  obtain ⟨s, b⟩ := r
  by_cases hs : s = 200 <;> cases b <;> simp [GetCheckRuns, hs]

/-- Whatever the one queued response holds, CreateCheckRun issues
exactly the POST request carrying the payload. -/
theorem CreateCheckRun_requests (c : PRClient) (name startedAt : String)
    (rc : CreateResponse) :
    (CreateCheckRun c name startedAt [rc]).2
      = [{ method := "POST", url := c.repoURL ++ "/check-runs",
           payload := some (createCheckRunPayload name c.commit startedAt) }] := by
  obtain ⟨s, b⟩ := rc
  by_cases hs : s = 201 <;> simp [CreateCheckRun, hs]

/-- Whatever the one queued response holds, UpdateCheckRun on a nonzero
id issues exactly the PATCH request carrying the payload. -/
theorem UpdateCheckRun_requests (c : PRClient) (payload : CheckRun)
    (ru : UpdateResponse) (hid : payload.id ≠ 0) :
    (UpdateCheckRun c payload [ru]).2
      = [{ method := "PATCH", url := c.repoURL ++ "/check-runs/" ++ toString payload.id,
           payload := some payload }] := by
  obtain ⟨s⟩ := ru
  by_cases hs : s = 200 <;> simp [UpdateCheckRun, hid, hs]

/-- C3 counterexample: after a first call obtained token-one, a second
call at a time well before any plausible expiry still issues its own
exchange and returns whatever the fresh response carries; nothing is
served from a cache. -/
theorem tokenCache_counterexample :
    (GetInstallationAccessToken envW cfgW 0 42
        [{ status := 201, body := some { token := "token-one", expiresAt := "2099-01-01T00:00:00Z" } }]).1
      = .ok "token-one"
    ∧ (GetInstallationAccessToken envW cfgW 1 42
        [{ status := 201, body := some { token := "token-two", expiresAt := "2099-01-01T01:00:00Z" } }]).1
      = .ok "token-two"
    ∧ (GetInstallationAccessToken envW cfgW 1 42
        [{ status := 201, body := some { token := "token-two", expiresAt := "2099-01-01T01:00:00Z" } }]).2.length
      = 1
    ∧ "token-two" ≠ "token-one" :=
  ⟨rfl, rfl, rfl, by decide⟩

/-- C3 amended: GetInstallationAccessToken holds no cache. Its result is
a function of the call arguments alone, every call whose JWT creation
succeeds issues its own POST exchange — two sequential calls issue two
requests — and a 201 response with a decodable body yields the token of
that very response each time. -/
theorem installationToken_no_cache (env : JwtEnv) (c : GithubConfig)
    (now now2 id : Int) (r r2 : TokenResponse) (j : SignedJWT)
    (h : createJWT env c now = .ok j) :
    ((GetInstallationAccessToken env c now id [r]).2
        = [{ method := "POST",
             url := c.api ++ "/app/installations/" ++ toString id ++ "/access_tokens",
             payload := none }])
    ∧ (∀ j2, createJWT env c now2 = .ok j2 →
        ((GetInstallationAccessToken env c now id [r]).2
          ++ (GetInstallationAccessToken env c now2 id [r2]).2).length = 2)
    ∧ (r.status = 201 → ∀ t, r.body = some t →
        (GetInstallationAccessToken env c now id [r]).1 = .ok t.token) := by
  refine ⟨GetInstallationAccessToken_requests env c now id r j h, ?_, ?_⟩
  · intro j2 h2
    rw [GetInstallationAccessToken_requests env c now id r j h,
      GetInstallationAccessToken_requests env c now2 id r2 j2 h2]
    rfl
  · intro hs t ht
    simp [GetInstallationAccessToken, h, hs, ht]

/-- Concrete instantiation of the C3 amended theorem. -/
theorem installationToken_no_cache_witness :
    (GetInstallationAccessToken envW cfgW 0 42
        [{ status := 201, body := some { token := "token-one", expiresAt := "e" } }]).2
      = [{ method := "POST",
           url := cfgW.api ++ "/app/installations/" ++ toString (42 : Int) ++ "/access_tokens",
           payload := none }] :=
  (installationToken_no_cache envW cfgW 0 0 42
    ⟨201, some ⟨"token-one", "e"⟩⟩ ⟨0, none⟩ jwtW rfl).1

/-- C9 counterexample: the client keeps no shared state between
callers, so two concurrent callers for the same uncached installation
are two independent evaluations; with the endpoint answering the two
exchanges differently, two exchange requests are issued and the callers
receive different tokens, refuting single-flight coalescing. -/
theorem singleFlight_counterexample :
    (GetInstallationAccessToken envW cfgW 0 42
        [{ status := 201, body := some { token := "token-a", expiresAt := "e" } }]).1
      = .ok "token-a"
    ∧ (GetInstallationAccessToken envW cfgW 0 42
        [{ status := 201, body := some { token := "token-b", expiresAt := "e" } }]).1
      = .ok "token-b"
    ∧ ((GetInstallationAccessToken envW cfgW 0 42
          [{ status := 201, body := some { token := "token-a", expiresAt := "e" } }]).2.length
        + (GetInstallationAccessToken envW cfgW 0 42
            [{ status := 201, body := some { token := "token-b", expiresAt := "e" } }]).2.length) = 2
    ∧ "token-a" ≠ "token-b" :=
  ⟨rfl, rfl, rfl, by decide⟩

/-- C9 amended: token issuance is per caller, with no single-flight
coalescing: each of two callers for the same installation performs its
own full exchange — one request each — and each receives the token of
its own response. -/
theorem installationToken_per_caller (env : JwtEnv) (c : GithubConfig)
    (now id : Int) (rA rB : TokenResponse) (j : SignedJWT)
    (h : createJWT env c now = .ok j) :
    ((GetInstallationAccessToken env c now id [rA]).2.length = 1)
    ∧ ((GetInstallationAccessToken env c now id [rB]).2.length = 1)
    ∧ (rA.status = 201 → ∀ t, rA.body = some t →
        (GetInstallationAccessToken env c now id [rA]).1 = .ok t.token)
    ∧ (rB.status = 201 → ∀ t, rB.body = some t →
        (GetInstallationAccessToken env c now id [rB]).1 = .ok t.token) := by
  refine ⟨by rw [GetInstallationAccessToken_requests env c now id rA j h]; rfl,
    by rw [GetInstallationAccessToken_requests env c now id rB j h]; rfl, ?_, ?_⟩
  · intro hs t ht
    simp [GetInstallationAccessToken, h, hs, ht]
  · intro hs t ht
    simp [GetInstallationAccessToken, h, hs, ht]

/-- Concrete instantiation of the C9 amended theorem. -/
theorem installationToken_per_caller_witness :
    (GetInstallationAccessToken envW cfgW 0 42
        [{ status := 201, body := some { token := "token-a", expiresAt := "e" } }]).2.length = 1 :=
  (installationToken_per_caller envW cfgW 0 42
    ⟨201, some ⟨"token-a", "e"⟩⟩ ⟨201, some ⟨"token-b", "e"⟩⟩ jwtW rfl).1

/-- C6 counterexample: a 401 response does not become a typed
Unauthorized outcome with token invalidation and one retry: even with a
fresh usable 200 response queued right behind it, GetCheckRuns consumes
exactly one exchange and surfaces a plain error string carrying the
status code. -/
theorem typedOutcomes_counterexample :
    (GetCheckRuns prcW
        [{ status := 401, body := none },
         { status := 200, body := some { totalCount := 1, checkRuns := [runW] } }]).1
      = .error "failed to get check-runs from api, status code: 401"
    ∧ (GetCheckRuns prcW
        [{ status := 401, body := none },
         { status := 200, body := some { totalCount := 1, checkRuns := [runW] } }]).2.length = 1 :=
  ⟨rfl, rfl⟩

/-- C6 amended: each REST operation issues exactly one request per call
and maps every unexpected status — 404, 401, 429 and 5xx alike — to a
plain error string embedding the code, with no typed outcome, no token
invalidation and no retry; the one expected status yields the decoded
payload. -/
theorem restClient_outcomes (c : PRClient) (payload : CheckRun) (name startedAt : String)
    (r : RunsResponse) (rc : CreateResponse) (ru : UpdateResponse) :
    ((GetCheckRuns c [r]).2.length = 1)
    ∧ (r.status ≠ 200 → (GetCheckRuns c [r]).1
        = .error ("failed to get check-runs from api, status code: " ++ toString r.status))
    ∧ (r.status = 200 → ∀ runs, r.body = some runs →
        (GetCheckRuns c [r]).1 = .ok runs.checkRuns)
    ∧ ((CreateCheckRun c name startedAt [rc]).2.length = 1)
    ∧ (rc.status ≠ 201 → (CreateCheckRun c name startedAt [rc]).1
        = .error ("failed to create check-run, status code: " ++ toString rc.status))
    ∧ (rc.status = 201 → (CreateCheckRun c name startedAt [rc]).1 = .ok ())
    ∧ (payload.id ≠ 0 → (UpdateCheckRun c payload [ru]).2.length = 1)
    ∧ (payload.id ≠ 0 → ru.status ≠ 200 → (UpdateCheckRun c payload [ru]).1
        = .error ("failed to update check-run, status code: " ++ toString ru.status))
    ∧ (payload.id ≠ 0 → ru.status = 200 → (UpdateCheckRun c payload [ru]).1 = .ok ()) := by
  refine ⟨by rw [GetCheckRuns_requests]; rfl, ?_, ?_,
    by rw [CreateCheckRun_requests]; rfl, ?_, ?_, ?_, ?_, ?_⟩
  · intro hs
    simp [GetCheckRuns, hs]
  · intro hs runs hb
    simp [GetCheckRuns, hs, hb]
  · intro hs
    simp [CreateCheckRun, hs]
  · intro hs
    simp [CreateCheckRun, hs]
  · intro hid
    rw [UpdateCheckRun_requests c payload ru hid]
    rfl
  · intro hid hs
    simp [UpdateCheckRun, hid, hs]
  · intro hid hs
    simp [UpdateCheckRun, hid, hs]

/-- A check forces failure exactly when it is completed with a failing
conclusion. -/
theorem isFailedCheck_iff (r : CheckRun) :
    isFailedCheck r = true ↔ r.status = "completed" ∧ r.conclusion ∈ failingConclusions := by
  simp [isFailedCheck]

/-- A check counts as passed exactly when it is completed with a
passing conclusion. -/
theorem isPassedCheck_iff (r : CheckRun) :
    isPassedCheck r = true ↔ r.status = "completed" ∧ r.conclusion ∈ passingConclusions := by
  simp [isPassedCheck]

/-- The three possible aggregate decisions, each with its exact
condition over the tracked checks. -/
theorem aggregateDecision_characterization (cs : List (String × CheckRun)) :
    (aggregateDecision cs = "failure" ↔ ∃ p ∈ cs, p.2.status = "completed" ∧ p.2.conclusion ∈ failingConclusions)
    ∧ (aggregateDecision cs = "success" ↔
        ¬(∃ p ∈ cs, p.2.status = "completed" ∧ p.2.conclusion ∈ failingConclusions)
        ∧ cs ≠ [] ∧ ∀ p ∈ cs, p.2.status = "completed" ∧ p.2.conclusion ∈ passingConclusions)
    ∧ (aggregateDecision cs = "in_progress" ↔
        ¬(∃ p ∈ cs, p.2.status = "completed" ∧ p.2.conclusion ∈ failingConclusions)
        ∧ ¬(cs ≠ [] ∧ ∀ p ∈ cs, p.2.status = "completed" ∧ p.2.conclusion ∈ passingConclusions)) := by
  have hf : cs.any (fun p => isFailedCheck p.2) = true ↔
      ∃ p ∈ cs, p.2.status = "completed" ∧ p.2.conclusion ∈ failingConclusions := by
    simp [List.any_eq_true, isFailedCheck_iff]
  have hp : ((!cs.isEmpty) && cs.all (fun p => isPassedCheck p.2)) = true ↔
      cs ≠ [] ∧ ∀ p ∈ cs, p.2.status = "completed" ∧ p.2.conclusion ∈ passingConclusions := by
    simp [List.all_eq_true, List.isEmpty_iff, isPassedCheck_iff]
  unfold aggregateDecision
  by_cases h1 : cs.any (fun p => isFailedCheck p.2) = true
  · rw [if_pos h1, hf] at *
    refine ⟨⟨fun _ => h1, fun _ => rfl⟩, ?_, ?_⟩
    · exact ⟨fun he => absurd he (by decide), fun hc => absurd h1 hc.1⟩
    · exact ⟨fun he => absurd he (by decide), fun hc => absurd h1 hc.1⟩
  · rw [if_neg h1]
    have h1n : ¬∃ p ∈ cs, p.2.status = "completed" ∧ p.2.conclusion ∈ failingConclusions := fun he => h1 (hf.mpr he)
    by_cases h2 : ((!cs.isEmpty) && cs.all (fun p => isPassedCheck p.2)) = true
    · rw [if_pos h2, hp] at *
      refine ⟨?_, ⟨fun _ => ⟨h1n, h2⟩, fun _ => rfl⟩, ?_⟩
      · exact ⟨fun he => absurd he (by decide), fun hc => absurd hc h1n⟩
      · exact ⟨fun he => absurd he (by decide), fun hc => absurd h2 hc.2⟩
    · rw [if_neg h2]
      have h2n : ¬(cs ≠ [] ∧ ∀ p ∈ cs, p.2.status = "completed" ∧ p.2.conclusion ∈ passingConclusions) := fun hc => h2 (hp.mpr hc)
      refine ⟨?_, ?_, ⟨fun _ => ⟨h1n, h2n⟩, fun _ => rfl⟩⟩
      · exact ⟨fun he => absurd he (by decide), fun hc => absurd hc h1n⟩
      · exact ⟨fun he => absurd he (by decide), fun hc => absurd hc.2.2 (fun ha => h2n ⟨hc.2.1, ha⟩)⟩

/-- Applying an event recomputes the status as the aggregate decision
over the resulting tracked checks. -/
theorem applyCheckRunEvent_status (guardName : String) (W now : Nat)
    (ev : CheckRunEvent) (e : AggregateEntry) :
    (applyCheckRunEvent guardName W now ev e).status = aggregateDecision (applyCheckRunEvent guardName W now ev e).checks := by
  unfold applyCheckRunEvent scheduleRefresh
  by_cases hg : ev.checkRun.name = guardName <;> simp [hg]

/-- C1: after applying any CheckRunEvent to any AggregateEntry, the
recomputed status is failure exactly when some tracked check is
completed with a conclusion among failure, timed_out, action_required,
cancelled and stale; success exactly when at least one check is
tracked, none failed and every one is completed with a conclusion
among success, neutral and skipped; and in_progress exactly otherwise,
in particular whenever zero checks are tracked. -/
theorem aggregate_decision_after_event (guardName : String) (W now : Nat)
    (ev : CheckRunEvent) (e : AggregateEntry) :
    ((applyCheckRunEvent guardName W now ev e).status = "failure" ↔
        ∃ p ∈ (applyCheckRunEvent guardName W now ev e).checks, p.2.status = "completed" ∧ p.2.conclusion ∈ failingConclusions)
    ∧ ((applyCheckRunEvent guardName W now ev e).status = "success" ↔
        ¬(∃ p ∈ (applyCheckRunEvent guardName W now ev e).checks, p.2.status = "completed" ∧ p.2.conclusion ∈ failingConclusions)
        ∧ (applyCheckRunEvent guardName W now ev e).checks ≠ []
        ∧ ∀ p ∈ (applyCheckRunEvent guardName W now ev e).checks, p.2.status = "completed" ∧ p.2.conclusion ∈ passingConclusions)
    ∧ ((applyCheckRunEvent guardName W now ev e).status = "in_progress" ↔
        ¬(∃ p ∈ (applyCheckRunEvent guardName W now ev e).checks, p.2.status = "completed" ∧ p.2.conclusion ∈ failingConclusions)
        ∧ ¬((applyCheckRunEvent guardName W now ev e).checks ≠ []
            ∧ ∀ p ∈ (applyCheckRunEvent guardName W now ev e).checks, p.2.status = "completed" ∧ p.2.conclusion ∈ passingConclusions))
    ∧ ((applyCheckRunEvent guardName W now ev e).checks = [] → (applyCheckRunEvent guardName W now ev e).status = "in_progress") := by
  rw [applyCheckRunEvent_status]
  obtain ⟨c1, c2, c3⟩ := aggregateDecision_characterization (applyCheckRunEvent guardName W now ev e).checks
  refine ⟨c1, c2, c3, fun hnil => c3.mpr ⟨?_, ?_⟩⟩
  · rintro ⟨p, hp, _⟩
    rw [hnil] at hp
    cases hp
  · rintro ⟨hne, _⟩
    exact hne hnil

/-- Upserting the same record twice equals upserting it once. -/
theorem upsertCheck_idem (name : String) (r : CheckRun) (l : List (String × CheckRun)) :
    upsertCheck name r (upsertCheck name r l) = upsertCheck name r l := by
  induction l with
  | nil => simp [upsertCheck]
  | cons h t ih =>
    obtain ⟨n, r0⟩ := h
    by_cases hn : n = name
    · simp [upsertCheck, hn]
    · simp [upsertCheck, hn, ih]

/-- Scheduling over an already scheduled deadline changes nothing. -/
theorem nextDeadline_idem (W now : Nat) (d : Option Nat) :
    nextDeadline W now (nextDeadline W now d) = nextDeadline W now d := by
  cases d with
  | some x => rfl
  | none => by_cases hW : W = 0 <;> simp [nextDeadline, hW]

/-- C8: event application is idempotent — for every AggregateEntry and
every CheckRunEvent, applying the identical event twice produces the
same AggregateEntry as applying it once. -/
theorem applyCheckRunEvent_idempotent (guardName : String) (W now : Nat)
    (ev : CheckRunEvent) (e : AggregateEntry) :
    applyCheckRunEvent guardName W now ev (applyCheckRunEvent guardName W now ev e) = applyCheckRunEvent guardName W now ev e := by
  unfold applyCheckRunEvent scheduleRefresh
  by_cases hg : ev.checkRun.name = guardName <;>
    simp [hg, upsertCheck_idem, nextDeadline_idem]

/-- Repository of the pull request fixtures. -/
def repoW : Repository :=
  { id := 1, name := "testrepo", fullName := "testowner/testrepo",
     url := "https://api.github.com/repos/testowner/testrepo" }

/-- Sender of the pull request fixtures. -/
def senderW : Sender := { login := "octocat", id := 7 }

/-- A pull_request opened event on the fixture repository. -/
def prEventW : PullRequestEvent :=
  { action := "opened", number := 1, repository := repoW, sender := senderW }

/-- C4 counterexample: on a pull_request opened event with no prior
check runs, the guard creation payload carries status pending with
empty conclusion — the status in_progress the claim demands differs
from the pending the code sends. -/
theorem guardStatus_counterexample :
    handlePullRequestEvent "cerberus-mergeguard" "testcommit" "t0" [] prEventW
      = [createCheckRunPayload "cerberus-mergeguard" "testcommit" "t0"]
    ∧ (createCheckRunPayload "cerberus-mergeguard" "testcommit" "t0").status = "pending"
    ∧ (createCheckRunPayload "cerberus-mergeguard" "testcommit" "t0").conclusion = ""
    ∧ "pending" ≠ "in_progress" :=
  ⟨rfl, rfl, rfl, by decide⟩

/-- C4 amended: on a PullRequestEvent whose action is opened, reopened
or synchronize, a guard check run is ensured to exist for the commit —
after handling, a known or newly created run carries the guard name;
creation happens exactly when no known run carries it, and the created
payload has status pending, not in_progress, with empty conclusion. -/
theorem pullRequest_guard_ensured (guardName commit now : String)
    (existing : List CheckRun) (ev : PullRequestEvent)
    (h : ev.action = "opened" ∨ ev.action = "reopened" ∨ ev.action = "synchronize") :
    ((existing ++ handlePullRequestEvent guardName commit now existing ev).any
        (fun r => r.name == guardName) = true)
    ∧ (existing.any (fun r => r.name == guardName) = true →
        handlePullRequestEvent guardName commit now existing ev = [])
    ∧ (existing.any (fun r => r.name == guardName) = false →
        handlePullRequestEvent guardName commit now existing ev
          = [createCheckRunPayload guardName commit now]
        ∧ (createCheckRunPayload guardName commit now).status = "pending"
        ∧ (createCheckRunPayload guardName commit now).conclusion = "") := by
  have hh : handlePullRequestEvent guardName commit now existing ev
      = if existing.any (fun r => r.name == guardName) = true then []
        else [createCheckRunPayload guardName commit now] := by
    unfold handlePullRequestEvent
    rw [if_pos h]
  by_cases hex : existing.any (fun r => r.name == guardName) = true
  · rw [hh, if_pos hex]
    exact ⟨by simp [List.any_append, hex], fun _ => rfl,
      fun hf => absurd hex (by simp [hf])⟩
  · rw [hh, if_neg hex]
    refine ⟨?_, fun ht => absurd ht hex, fun _ => ⟨rfl, rfl, rfl⟩⟩
    simp [List.any_append, createCheckRunPayload]

/-- Concrete instantiation of the C4 amended theorem. -/
theorem pullRequest_guard_ensured_witness :
    ([] ++ handlePullRequestEvent "cerberus-mergeguard" "testcommit" "t0" [] prEventW).any
        (fun r => r.name == "cerberus-mergeguard") = true :=
  (pullRequest_guard_ensured "cerberus-mergeguard" "testcommit" "t0" [] prEventW
    (Or.inl rfl)).1

/-- C5: the webhook handler answers only the statuses 200, 400 and
401: 400 when the signature header is missing while a secret is
configured, 401 when a supplied signature fails verification against a
configured secret, and — once authenticated or exempt — 400 when a
pull_request or check_run body fails to decode, 200 with the decoded
event dispatched when it decodes, and 200 with nothing dispatched for
any other event type; an event is dispatched only with status 200, so
malformed and unauthenticated requests drop theirs. -/
theorem webhookHandler_statuses (decodePR : List Nat → Option PullRequestEvent)
    (decodeCR : List Nat → Option CheckRunEvent)
    (secret sigHeader : List Nat) (eventType : String) (body : List Nat) :
    ((webhookHandler decodePR decodeCR secret sigHeader eventType body).status = 200
      ∨ (webhookHandler decodePR decodeCR secret sigHeader eventType body).status = 400
      ∨ (webhookHandler decodePR decodeCR secret sigHeader eventType body).status = 401)
    ∧ (sigHeader = [] → secret ≠ [] → webhookHandler decodePR decodeCR secret sigHeader eventType body = ⟨400, none⟩)
    ∧ (sigHeader ≠ [] → secret ≠ [] →
        verifyWebhookSignature body secret sigHeader = false → webhookHandler decodePR decodeCR secret sigHeader eventType body = ⟨401, none⟩)
    ∧ ((webhookHandler decodePR decodeCR secret sigHeader eventType body).dispatched ≠ none → (webhookHandler decodePR decodeCR secret sigHeader eventType body).status = 200)
    ∧ ((sigHeader = [] ∧ secret = [])
        ∨ (sigHeader ≠ [] ∧ (secret = [] ∨ verifyWebhookSignature body secret sigHeader = true)) →
        (eventType = "pull_request" → decodePR body = none → webhookHandler decodePR decodeCR secret sigHeader eventType body = ⟨400, none⟩)
        ∧ (eventType = "pull_request" → ∀ ev, decodePR body = some ev →
            webhookHandler decodePR decodeCR secret sigHeader eventType body = ⟨200, some (.pullRequest ev)⟩)
        ∧ (eventType = "check_run" → decodeCR body = none → webhookHandler decodePR decodeCR secret sigHeader eventType body = ⟨400, none⟩)
        ∧ (eventType = "check_run" → ∀ ev, decodeCR body = some ev →
            webhookHandler decodePR decodeCR secret sigHeader eventType body = ⟨200, some (.checkRun ev)⟩)
        ∧ (eventType ≠ "pull_request" → eventType ≠ "check_run" → webhookHandler decodePR decodeCR secret sigHeader eventType body = ⟨200, none⟩)) := by
  refine ⟨?_, ?_, ?_, ?_, ?_⟩
  · unfold webhookHandler
    split_ifs
    · simp
    · simp
    · cases decodePR body <;> simp
    · cases decodeCR body <;> simp
    · simp
  · intro hs hsec
    unfold webhookHandler
    rw [if_pos ⟨hs, hsec⟩]
  · intro hs hsec hv
    unfold webhookHandler
    rw [if_neg (fun hc => hs hc.1), if_pos ⟨hs, hsec, hv⟩]
  · unfold webhookHandler
    split_ifs
    · simp
    · simp
    · cases decodePR body <;> simp
    · cases decodeCR body <;> simp
    · simp
  · intro hauth
    have h1 : ¬(sigHeader = [] ∧ secret ≠ []) := by
      rcases hauth with ⟨hs, hsec⟩ | ⟨hne, hd⟩
      · exact fun hc => hc.2 hsec
      · exact fun hc => hne hc.1
    have h2 : ¬(sigHeader ≠ [] ∧ secret ≠ []
        ∧ verifyWebhookSignature body secret sigHeader = false) := by
      rcases hauth with ⟨hs, hsec⟩ | ⟨hne, hd⟩
      · exact fun hc => hc.1 hs
      · rcases hd with hsec | hv
        · exact fun hc => hc.2.1 hsec
        · intro hc
          rw [hv] at hc
          exact absurd hc.2.2 (by decide)
    refine ⟨?_, ?_, ?_, ?_, ?_⟩
    · intro he hd
      unfold webhookHandler
      rw [if_neg h1, if_neg h2, if_pos he, hd]
    · intro he ev hd
      unfold webhookHandler
      rw [if_neg h1, if_neg h2, if_pos he, hd]
    · intro he hd
      have hne : eventType ≠ "pull_request" := by rw [he]; decide
      unfold webhookHandler
      rw [if_neg h1, if_neg h2, if_neg hne, if_pos he, hd]
    · intro he ev hd
      have hne : eventType ≠ "pull_request" := by rw [he]; decide
      unfold webhookHandler
      rw [if_neg h1, if_neg h2, if_neg hne, if_pos he, hd]
    · intro he1 he2
      unfold webhookHandler
      rw [if_neg h1, if_neg h2, if_neg he1, if_neg he2]

/-- The HMAC digest of the test fixture, in hex, is the one the spec
quotes. -/
theorem digest_eq : hexBytes (hmacSha256 tsBytes tbBytes) = f940Bytes := by
  rw [hmac_bridge tbBytes (by decide)]
  decide

/-- Stripping the scheme tag of the fixture signature leaves the bare
digest. -/
theorem trim_sigBytes : trimSigScheme sigBytes = f940Bytes := by decide

/-- The fixture signature verifies against the fixture body and
secret. -/
theorem verify_pos : verifyWebhookSignature tbBytes tsBytes sigBytes = true := by
  unfold verifyWebhookSignature
  rw [digest_eq, trim_sigBytes]
  exact beq_self_eq_true f940Bytes

/-- No byte value other than 116 at position 0 of the test body
reproduces the expected digest (checked over the whole byte range). -/
theorem bodyBulk0 : ∀ b, b < 256 → b ≠ 116 →
    (hexBytes (hmacTail9 [b, 101, 115, 116, 32, 98, 111, 100, 121]) == f940Bytes) = false := by
  decide!

/-- No byte value other than 101 at position 1 of the test body
reproduces the expected digest (checked over the whole byte range). -/
theorem bodyBulk1 : ∀ b, b < 256 → b ≠ 101 →
    (hexBytes (hmacTail9 [116, b, 115, 116, 32, 98, 111, 100, 121]) == f940Bytes) = false := by
  decide!

/-- No byte value other than 115 at position 2 of the test body
reproduces the expected digest (checked over the whole byte range). -/
theorem bodyBulk2 : ∀ b, b < 256 → b ≠ 115 →
    (hexBytes (hmacTail9 [116, 101, b, 116, 32, 98, 111, 100, 121]) == f940Bytes) = false := by
  decide!

/-- No byte value other than 116 at position 3 of the test body
reproduces the expected digest (checked over the whole byte range). -/
theorem bodyBulk3 : ∀ b, b < 256 → b ≠ 116 →
    (hexBytes (hmacTail9 [116, 101, 115, b, 32, 98, 111, 100, 121]) == f940Bytes) = false := by
  decide!

/-- No byte value other than 32 at position 4 of the test body
reproduces the expected digest (checked over the whole byte range). -/
theorem bodyBulk4 : ∀ b, b < 256 → b ≠ 32 →
    (hexBytes (hmacTail9 [116, 101, 115, 116, b, 98, 111, 100, 121]) == f940Bytes) = false := by
  decide!

/-- No byte value other than 98 at position 5 of the test body
reproduces the expected digest (checked over the whole byte range). -/
theorem bodyBulk5 : ∀ b, b < 256 → b ≠ 98 →
    (hexBytes (hmacTail9 [116, 101, 115, 116, 32, b, 111, 100, 121]) == f940Bytes) = false := by
  decide!

/-- No byte value other than 111 at position 6 of the test body
reproduces the expected digest (checked over the whole byte range). -/
theorem bodyBulk6 : ∀ b, b < 256 → b ≠ 111 →
    (hexBytes (hmacTail9 [116, 101, 115, 116, 32, 98, b, 100, 121]) == f940Bytes) = false := by
  decide!

/-- No byte value other than 100 at position 7 of the test body
reproduces the expected digest (checked over the whole byte range). -/
theorem bodyBulk7 : ∀ b, b < 256 → b ≠ 100 →
    (hexBytes (hmacTail9 [116, 101, 115, 116, 32, 98, 111, b, 121]) == f940Bytes) = false := by
  decide!

/-- No byte value other than 121 at position 8 of the test body
reproduces the expected digest (checked over the whole byte range). -/
theorem bodyBulk8 : ∀ b, b < 256 → b ≠ 121 →
    (hexBytes (hmacTail9 [116, 101, 115, 116, 32, 98, 111, 100, b]) == f940Bytes) = false := by
  decide!

/-- Any single-byte change of the test body makes verification fail:
at every position, every differing byte value yields a digest other
than the signature. -/
theorem verify_body_corrupt : ∀ i, i < 9 → ∀ b, b < 256 → b ≠ tbBytes.getD i 0 →
    verifyWebhookSignature (tbBytes.set i b) tsBytes sigBytes = false := by
  intro i hi b hblt hbne
  unfold verifyWebhookSignature
  rw [trim_sigBytes, hmac_bridge (tbBytes.set i b) (by rw [List.length_set]; decide)]
  interval_cases i
  · exact bodyBulk0 b hblt (by simpa [tbBytes, List.getD] using hbne)
  · exact bodyBulk1 b hblt (by simpa [tbBytes, List.getD] using hbne)
  · exact bodyBulk2 b hblt (by simpa [tbBytes, List.getD] using hbne)
  · exact bodyBulk3 b hblt (by simpa [tbBytes, List.getD] using hbne)
  · exact bodyBulk4 b hblt (by simpa [tbBytes, List.getD] using hbne)
  · exact bodyBulk5 b hblt (by simpa [tbBytes, List.getD] using hbne)
  · exact bodyBulk6 b hblt (by simpa [tbBytes, List.getD] using hbne)
  · exact bodyBulk7 b hblt (by simpa [tbBytes, List.getD] using hbne)
  · exact bodyBulk8 b hblt (by simpa [tbBytes, List.getD] using hbne)

/-- Lists of different lengths are never boolean-equal. -/
theorem beq_false_of_length_ne (l1 l2 : List Nat) (h : l1.length ≠ l2.length) :
    (l1 == l2) = false := by
  cases hb : l1 == l2
  · rfl
  · exact absurd (congrArg List.length (eq_of_beq hb)) h

/-- Replacing an in-range entry by a different value breaks boolean
equality with the original list. -/
theorem set_beq_false (l : List Nat) (j b : Nat) (hj : j < l.length) (hb : b ≠ l.getD j 0) :
    (l == l.set j b) = false := by
  rw [beq_eq_false_iff_ne]
  intro heq
  apply hb
  have h2 := congrArg (fun s => s.getD j 0) heq
  simp only [] at h2
  rw [h2, List.getD_eq_getElem _ _ (by simpa using hj), List.getElem_set_self]

/-- Corrupting a byte of the scheme tag makes the prefix test fail, so
the header value is kept whole. -/
theorem trim_corrupt_tag (i b : Nat) (hi : i < 7) (hb : b ≠ sigBytes.getD i 0) :
    trimSigScheme (sigBytes.set i b) = sigBytes.set i b := by
  have htag : asciiBytes "sha256=" = [115, 104, 97, 50, 53, 54, 61] := by decide
  have hne : ¬((sigBytes.set i b).take 7 = asciiBytes "sha256=") := by
    rw [htag]
    intro hpre
    apply hb
    interval_cases i <;> simp_all [sigBytes, List.set, List.getD]
  unfold trimSigScheme
  rw [if_neg hne]

/-- Setting a byte past the scheme tag touches only the digest part. -/
theorem sigBytes_set_tail (j b : Nat) :
    sigBytes.set (j + 7) b = [115, 104, 97, 50, 53, 54, 61] ++ f940Bytes.set j b := by
  simp [sigBytes, f940Bytes, List.set]

/-- Reading a byte past the scheme tag reads the digest part. -/
theorem sigBytes_getD_tail (j : Nat) : sigBytes.getD (j + 7) 0 = f940Bytes.getD j 0 := by
  simp [sigBytes, f940Bytes, List.getD]

/-- The scheme tag in front of any value is stripped entirely. -/
theorem trim_tag_append (x : List Nat) :
    trimSigScheme ([115, 104, 97, 50, 53, 54, 61] ++ x) = x := by
  have htag : asciiBytes "sha256=" = [115, 104, 97, 50, 53, 54, 61] := by decide
  simp [trimSigScheme, htag]

/-- Any single-byte change of the signature header makes verification
fail: a change inside the sha256= tag leaves a 71-byte value that
cannot equal the 64 hex digits, and a change in the digest part
differs from the true digest at that position. -/
theorem verify_sig_corrupt : ∀ i, i < 71 → ∀ b, b < 256 → b ≠ sigBytes.getD i 0 →
    verifyWebhookSignature tbBytes tsBytes (sigBytes.set i b) = false := by
  intro i hi b hblt hbne
  unfold verifyWebhookSignature
  rw [digest_eq]
  by_cases hcase : i < 7
  · rw [trim_corrupt_tag i b hcase hbne]
    apply beq_false_of_length_ne
    rw [List.length_set]
    decide
  · obtain ⟨j, rfl⟩ : ∃ j, i = j + 7 := ⟨i - 7, by omega⟩
    rw [sigBytes_set_tail, trim_tag_append]
    apply set_beq_false
    · have h64 : f940Bytes.length = 64 := by decide
      omega
    · rw [sigBytes_getD_tail] at hbne
      exact hbne

/-- C2: the embedded verifyWebhookSignature — HMAC-SHA256 over the raw
body with the configured secret, rendered in hex and compared against
the header value after stripping the sha256= scheme tag — accepts the
repository test fixture: body "test body", secret "testsecret" and the
quoted signature; and every single-byte change, of any of the 9 body
bytes or any of the 71 signature bytes, to any other byte value, makes
verification fail. Constant-timeness of the comparison is a timing
property outside the embedding. -/
theorem webhookSignature_verification :
    verifyWebhookSignature tbBytes tsBytes sigBytes = true
    ∧ (∀ i, i < 9 → ∀ b, b < 256 → b ≠ tbBytes.getD i 0 →
        verifyWebhookSignature (tbBytes.set i b) tsBytes sigBytes = false)
    ∧ (∀ i, i < 71 → ∀ b, b < 256 → b ≠ sigBytes.getD i 0 →
        verifyWebhookSignature tbBytes tsBytes (sigBytes.set i b) = false) :=
  ⟨verify_pos, verify_body_corrupt, verify_sig_corrupt⟩

end Cerberus
